import Mathlib

/-!
# Shallow embedding of the 2D UAV simulator core (src/src/simulator.py)

The simulator's numeric values are embedded as rationals.  The source
compares Euclidean distances (`math.dist`, a square root) against radii;
here every such comparison `dist p q ≤ r` is embedded as
`0 ≤ r ∧ sqDist p q ≤ r ^ 2`, which agrees with the real comparison
(`sqLeB_eq_sqrt_le` below justifies the encoding against `Real.sqrt`).

Console output (`print`) is embedded as a list of emitted `Event`s, and
the exceptions the code can raise (`raise Exception`, `IndexError` from
list indexing) as an `AvoidError` value that aborts the rest of the
operation, as the Python exception would.
-/

namespace UavSim

/-- Squared Euclidean distance between two points. -/
def sqDist (p q : ℚ × ℚ) : ℚ := (p.1 - q.1) ^ 2 + (p.2 - q.2) ^ 2

/-- `sqLeB d2 r` embeds the source comparison `dist ≤ r` where `d2` is the
squared distance: a nonnegative square root is `≤ r` iff `0 ≤ r` and the
radicand is `≤ r ^ 2`. -/
def sqLeB (d2 r : ℚ) : Bool := decide (0 ≤ r ∧ d2 ≤ r ^ 2)

/-- One aircraft's state: the fields of `src/aircraft.py`'s `Aircraft` that
`simulator.py` reads or writes. -/
structure Aircraft where
  aircraft_id : Nat
  position : ℚ × ℚ
  yaw_angle : ℚ
  course : ℚ
  speed : ℚ
  max_course_change : ℚ
  size : ℚ
  safezone_size : ℚ
  safezone_occupied : Bool
  distance_covered : ℚ
  path : List (ℚ × ℚ)
  deriving DecidableEq, Inhabited

/-- The simulator state: the fields of `Simulator` that the engine methods
read or write.  `simulation_timer_active` models whether the Qt
`simulation_timer` is running. -/
structure Simulator where
  resolution : ℚ × ℚ
  aircrafts : List Aircraft
  is_stopped : Bool
  is_finished : Bool
  simulation_timer_active : Bool
  current_simulation_fps : ℚ
  cause_crash_second : Bool
  deriving DecidableEq, Inhabited

/-- Observable console output of the engine methods (`print` calls). -/
inductive Event where
  | collided
  | leftBoundaries
  | enteredSafezone (k : Nat)
  | leftSafezone (k : Nat)
  | warnNoAircrafts
  | warnTooMany
  | conflictReport (d2 : ℚ) (vec : ℚ × ℚ)
  deriving DecidableEq

/-- Exceptions `avoid_aircraft_collision` can raise: the explicit
`raise Exception("Aircraft ids are not the same...")` and the `IndexError`
of an out-of-range list access. -/
inductive AvoidError where
  | idMismatch
  | indexOutOfRange (i : Nat)
  deriving DecidableEq

/-- `self.aircrafts[i]` as a fallible access (Python raises `IndexError`
out of range). -/
def getAc (s : Simulator) (i : Nat) : Except AvoidError Aircraft :=
  match s.aircrafts[i]? with
  | some a => Except.ok a
  | none => Except.error (AvoidError.indexOutOfRange i)

/-- `self.aircrafts[i]` in the loops whose indices are in range by
construction. -/
def acAt (s : Simulator) (i : Nat) : Aircraft := s.aircrafts.getD i default

/-- `self.aircrafts[i] = a` (in-place mutation of one list slot). -/
def setAc (s : Simulator) (i : Nat) (a : Aircraft) : Simulator :=
  { s with aircrafts := s.aircrafts.set i a }

/-- `Simulator.start_simulation` (the timer start and `is_stopped = False`;
the frame counters are presentation state). -/
def start_simulation (s : Simulator) : Simulator :=
  { s with is_stopped := false, simulation_timer_active := true }

/-- `Simulator.stop_simulation`. -/
def stop_simulation (s : Simulator) : Simulator :=
  { s with simulation_timer_active := false, is_stopped := true,
           current_simulation_fps := 0 }

/-- `Simulator.avoid_aircraft_collision`.  The source mutates nothing: it
prints (events) or raises; the `IndexError` at `self.aircrafts[1 - aircraft_id]`
occurs while evaluating the second argument of `dist`, after the first
access `self.aircrafts[aircraft_id]` succeeded. -/
def avoid_aircraft_collision (s : Simulator) (aircraft_id : Nat) :
    Except AvoidError (List Event) :=
  if ¬ s.aircrafts.length ≥ 1 then Except.ok [Event.warnNoAircrafts]
  else if ¬ s.aircrafts.length ≤ 2 then Except.ok [Event.warnTooMany]
  else
    match s.aircrafts[aircraft_id]? with
    | none => Except.error (AvoidError.indexOutOfRange aircraft_id)
    | some aircraft =>
      if ¬ aircraft.aircraft_id = aircraft_id then Except.error AvoidError.idMismatch
      else
        match s.aircrafts[aircraft_id]?, s.aircrafts[1 - aircraft_id]? with
        | some a, some b =>
            Except.ok [Event.conflictReport (sqDist a.position b.position)
              (a.position.1 - b.position.1, a.position.2 - b.position.2)]
        | none, _ => Except.error (AvoidError.indexOutOfRange aircraft_id)
        | some _, none => Except.error (AvoidError.indexOutOfRange (1 - aircraft_id))

/-- The unordered index pairs `(i, j)`, `i < j`, visited by the nested
loops `for i in range(len - 1): for j in range(i + 1, len)`. -/
def pairIdxs (n : Nat) : List (Nat × Nat) :=
  (List.range (n - 1)).flatMap fun i => (List.range' (i + 1) (n - (i + 1))).map fun j => (i, j)

/-- The collision test of `check_collision` for one pair:
`dist ≤ (size_i + size_j) / 2`. -/
def collideB (a b : Aircraft) : Bool :=
  sqLeB (sqDist a.position b.position) ((a.size + b.size) / 2)

/-- `Simulator.check_collision`: the loops return on the first colliding
pair after `stop_simulation()` and `is_finished = True`; per-pair
iterations mutate nothing, so the early-returning loop is the first pair
satisfying the test (`List.find?`). -/
def check_collision (s : Simulator) : Bool × Simulator × List Event :=
  match (pairIdxs s.aircrafts.length).find?
      (fun p => collideB (acAt s p.1) (acAt s p.2)) with
  | some _ => (true, { stop_simulation s with is_finished := true }, [Event.collided])
  | none => (false, s, [])

/-- The containment test of `check_offscreen` for one aircraft. -/
def inBounds (res : ℚ × ℚ) (a : Aircraft) : Bool :=
  decide (0 + a.size / 2 ≤ a.position.1 ∧ a.position.1 ≤ res.1 - a.size / 2 ∧
          0 + a.size / 2 ≤ a.position.2 ∧ a.position.2 ≤ res.2 - a.size / 2)

/-- `Simulator.check_offscreen`: returns on the first aircraft (in
collection order) failing the containment test. -/
def check_offscreen (s : Simulator) : Bool × Simulator × List Event :=
  match s.aircrafts.find? (fun a => ! inBounds s.resolution a) with
  | some _ => (true, { stop_simulation s with is_finished := true },
               [Event.leftBoundaries])
  | none => (false, s, [])

/-- One side of `check_safezones`' per-pair body: the block guarding
aircraft `k`'s own flag.  `inside` is the already-computed comparison of
the pair's distance against `aircrafts[k].safezone_size / 2`.  On a
false→true transition the flag is set first, then
`avoid_aircraft_collision` runs (an exception there aborts the pass with
the flag already set), then the "entered" line prints. -/
def safezoneSide (s : Simulator) (k : Nat) (inside : Bool) :
    Simulator × List Event × Option AvoidError :=
  let a := acAt s k
  if inside then
    if ! a.safezone_occupied then
      let s1 := setAc s k { a with safezone_occupied := true }
      match avoid_aircraft_collision s1 a.aircraft_id with
      | Except.error e => (s1, [], some e)
      | Except.ok evs => (s1, evs ++ [Event.enteredSafezone a.aircraft_id], none)
    else (s, [], none)
  else
    if a.safezone_occupied then
      (setAc s k { a with safezone_occupied := false }, [Event.leftSafezone a.aircraft_id], none)
    else (s, [], none)

/-- The body of `check_safezones` for one pair `(i, j)`: the distance is
computed once, then aircraft `i`'s block runs, then (if no exception)
aircraft `j`'s block, reading `aircrafts[j].safezone_size` from the
current state. -/
def safezonePair (s : Simulator) (i j : Nat) : Simulator × List Event × Option AvoidError :=
  let d2 := sqDist (acAt s i).position (acAt s j).position
  match safezoneSide s i (sqLeB d2 ((acAt s i).safezone_size / 2)) with
  | (s1, evs1, some e) => (s1, evs1, some e)
  | (s1, evs1, none) =>
    let r := safezoneSide s1 j (sqLeB d2 ((acAt s1 j).safezone_size / 2))
    (r.1, evs1 ++ r.2.1, r.2.2)

/-- `Simulator.check_safezones`: all pairs in loop order; an exception
raised inside a pair's body propagates, skipping the remaining pairs but
keeping the mutations already made. -/
def check_safezones (s : Simulator) : Simulator × List Event × Option AvoidError :=
  (pairIdxs s.aircrafts.length).foldl
    (fun acc p =>
      match acc with
      | (s0, evs, some e) => (s0, evs, some e)
      | (s0, evs, none) =>
        let r := safezonePair s0 p.1 p.2
        (r.1, evs ++ r.2.1, r.2.2))
    (s, [], none)

/-- `a - b * floor (a / b)`: Python's `%` on these values. -/
def qmod (a b : ℚ) : ℚ := a - b * ⌊a / b⌋

/-- Stand-in for `math.degrees(math.atan2(dy, dx))` in `cause_collision`.
The transcendental value is irrational, so an exact rational embedding is
impossible; this computable surrogate (the octant-linear "diamond angle")
agrees with `atan2` on the cardinal and diagonal directions and, after the
source's `% 360`, lands in `[0, 360)`.  No claim below depends on the
numeric value, only on the assignment happening. -/
def atan2Deg (dy dx : ℚ) : ℚ :=
  if dx = 0 ∧ dy = 0 then 0
  else
    let d := |dx| + |dy|
    if 0 ≤ dx then 90 * dy / d
    else if 0 ≤ dy then 180 - 90 * dy / d
    else -180 - 90 * dy / d

/-- `Simulator.cause_collision`: when at least two aircraft exist, point
aircraft 1's `course` at aircraft 0's current position. -/
def cause_collision (s : Simulator) : Simulator :=
  if s.aircrafts.length ≥ 2 then
    let aircraft := acAt s 1
    let target := acAt s 0
    let delta_x := target.position.1 - aircraft.position.1
    let delta_y := target.position.2 - aircraft.position.2
    let angle_deg := qmod (atan2Deg delta_y delta_x) 360
    setAc s 1 { aircraft with course := angle_deg }
  else s

/-- Modelled from the spec: the heading step of the Kinematics Stepper
(`Aircraft.update_position` lives in `src/aircraft.py`, which is not under
`src/`).  Per §4.1 the heading moves toward `course` by at most
`max_course_change` degrees, wrapping across 0/360, and stops exactly at
`course` when within reach. -/
def stepHeading (yaw course maxc : ℚ) : ℚ :=
  let diff := qmod (course - yaw) 360
  if diff ≤ 180 then qmod (yaw + min diff maxc) 360
  else qmod (yaw - min (360 - diff) maxc) 360

/-- Modelled from the spec: the unit direction of a heading in the
source's trigonometric convention, `(cos θ, sin θ)`.  Trigonometric values
are irrational, so this computable stand-in uses a rational unit-circle
parametrization (`x ^ 2 + y ^ 2 = 1` exactly, so the position advances by
exactly `speed` units, §4.1); no claim below depends on its values. -/
def unitDir (deg : ℚ) : ℚ × ℚ :=
  let t := deg / 180
  ((1 - t ^ 2) / (1 + t ^ 2), 2 * t / (1 + t ^ 2))

/-- Modelled from the spec: `Aircraft.update_position` (§4.1, not under
`src/`): update the heading, advance the position by `speed` along the
updated heading, accumulate `distance_covered`, append to `path`; reads no
other vehicle's state. -/
def update_position (a : Aircraft) : Aircraft :=
  let yaw := stepHeading a.yaw_angle a.course a.max_course_change
  let dir := unitDir yaw
  let pos : ℚ × ℚ := (a.position.1 + a.speed * dir.1, a.position.2 + a.speed * dir.2)
  { a with yaw_angle := yaw, position := pos,
           distance_covered := a.distance_covered + a.speed,
           path := a.path ++ [pos] }

/-- `Simulator.update_simulation`: one physics tick (the FPS counters are
presentation state and not modelled).  An exception from the safezone pass
propagates out of the tick; otherwise `is_stopped` is assigned the result
of each terminal check in turn, returning early when one fires. -/
def update_simulation (s : Simulator) : Simulator × List Event × Option AvoidError :=
  let sm := { s with aircrafts := s.aircrafts.map update_position }
  match check_safezones sm with
  | (s1, evs, some e) => (s1, evs, some e)
  | (s1, evs, none) =>
    let r2 := check_collision s1
    let s2 := { r2.2.1 with is_stopped := r2.1 }
    if r2.1 then (s2, evs ++ r2.2.2, none)
    else
      let r3 := check_offscreen s2
      let s3 := { r3.2.1 with is_stopped := r3.1 }
      if r3.1 then (s3, evs ++ r2.2.2 ++ r3.2.2, none)
      else if s3.cause_crash_second then (cause_collision s3, evs ++ r2.2.2 ++ r3.2.2, none)
      else (s3, evs ++ r2.2.2 ++ r3.2.2, none)

/-- Modelled from the spec: the `Aircraft` constructor defaults
(`src/aircraft.py` is not under `src/`).  The spec requires `size > 0`,
`safezone_size > 0` with `safezone_size ≥ size`, `distance_covered`
reinitialized to 0 and an empty `path` on construction; the positive
constants chosen here are representative and no claim depends on them. -/
def mkAircraft (aircraft_id : Nat) (position : ℚ × ℚ) (yaw_angle speed course : ℚ) :
    Aircraft :=
  { aircraft_id := aircraft_id, position := position, yaw_angle := yaw_angle,
    course := course, speed := speed, max_course_change := 5,
    size := 20, safezone_size := 100,
    safezone_occupied := false, distance_covered := 0, path := [] }

/-- The path-clearing loop at the start of `reset_simulation`. -/
def clear_paths (s : Simulator) : Simulator :=
  { s with aircrafts := s.aircrafts.map fun a => { a with path := [] } }

/-- `Simulator.reset_simulation`: clear every existing aircraft's path,
then replace the collection with the two fresh aircraft of the fixed
starting configuration, and clear `is_finished`. -/
def reset_simulation (s : Simulator) : Simulator :=
  { clear_paths s with
    aircrafts := [mkAircraft 0 (100, 100) 45 2 45, mkAircraft 1 (900, 100) 135 2 135],
    is_finished := false }

/-- The `Key_R` branch of `keyPressEvent`: stop, reset, start. -/
def key_r (s : Simulator) : Simulator :=
  start_simulation (reset_simulation (stop_simulation s))

/-- The `Key_Slash` branch of `keyPressEvent`: when not finished, toggle
between stopped and running; when finished, reset then start. -/
def key_slash (s : Simulator) : Simulator :=
  if ¬ s.is_finished then
    if s.is_stopped then start_simulation s else stop_simulation s
  else
    start_simulation (reset_simulation s)

/-- One firing opportunity of the physics timer: `update_simulation` runs
only while the timer is active. -/
def tick (s : Simulator) : Simulator × List Event :=
  if s.simulation_timer_active then
    let r := update_simulation s
    (r.1, r.2.1)
  else (s, [])

/-- `run n s`: the trace of `n` consecutive timer firing opportunities. -/
def run : Nat → Simulator → Simulator × List Event
  | 0, s => (s, [])
  | n + 1, s =>
    let r := tick s
    let r2 := run n r.1
    (r2.1, r.2 ++ r2.2)

/-! ## Helper definitions and lemmas -/

/-- Some unordered pair of aircraft satisfies the collision test. -/
def anyCollision (s : Simulator) : Bool :=
  (pairIdxs s.aircrafts.length).any fun p => collideB (acAt s p.1) (acAt s p.2)

/-- Every aircraft passes the containment test. -/
def allInBounds (s : Simulator) : Bool :=
  s.aircrafts.all fun a => inBounds s.resolution a

/-- The state a terminal check leaves behind: timer stopped, `is_stopped`,
FPS display zeroed, `is_finished`. -/
def finishStop (s : Simulator) : Simulator :=
  { stop_simulation s with is_finished := true }

/-- `b`'s center lies within `a`'s own safezone radius (the proximity test
governing `a.safezone_occupied`). -/
def insideOf (a b : Aircraft) : Bool :=
  sqLeB (sqDist a.position b.position) (a.safezone_size / 2)

/-- The events one side of the pair body emits for the aircraft with id
`k` at position `p` (the other at `q`), given the old flag and the test
outcome: conflict report plus "entered" exactly on a false→true
transition, "left" exactly on a true→false transition, nothing
otherwise. -/
def sideEvents (k : Nat) (p q : ℚ × ℚ) (oldFlag inside : Bool) : List Event :=
  if inside then
    if oldFlag then []
    else [Event.conflictReport (sqDist p q) (p.1 - q.1, p.2 - q.2),
          Event.enteredSafezone k]
  else if oldFlag then [Event.leftSafezone k] else []

/-- The scenario of the spec's idempotence property: two static aircraft,
each inside the other's safezone radius, not colliding, inside the
boundaries, scripted injection off, physics timer running. -/
def StaticCfg (s : Simulator) (a b : Aircraft) : Prop :=
  s.aircrafts = [a, b] ∧ a.aircraft_id = 0 ∧ b.aircraft_id = 1 ∧
  a.speed = 0 ∧ b.speed = 0 ∧
  insideOf a b = true ∧ insideOf b a = true ∧
  collideB a b = false ∧
  inBounds s.resolution a = true ∧ inBounds s.resolution b = true ∧
  s.cause_crash_second = false ∧ s.simulation_timer_active = true

/-! ## Concrete states used by the witnesses -/

/-- A base simulator state (1000×1000 area, timer running, nothing
terminal). -/
def simBase : Simulator :=
  { resolution := (1000, 1000), aircrafts := [], is_stopped := false,
    is_finished := false, simulation_timer_active := true,
    current_simulation_fps := 0, cause_crash_second := false }

/-- Aircraft with a large (100) safezone at the origin. -/
def acP : Aircraft := { mkAircraft 0 (0, 0) 0 2 0 with safezone_size := 100 }

/-- Aircraft with a small (40) safezone 30 units away from `acP`. -/
def acQ : Aircraft := { mkAircraft 1 (30, 0) 0 2 0 with safezone_size := 40 }

/-- Static (speed 0) aircraft for the edge-trigger scenario. -/
def acS0 : Aircraft := mkAircraft 0 (100, 100) 0 0 0

/-- Static (speed 0) aircraft 30 units from `acS0`. -/
def acS1 : Aircraft := mkAircraft 1 (130, 100) 0 0 0

/-- The static two-aircraft scenario state. -/
def simS : Simulator := { simBase with aircrafts := [acS0, acS1] }

/-- Squared distance is symmetric. -/
theorem sqDist_comm (p q : ℚ × ℚ) : sqDist p q = sqDist q p := by
  unfold sqDist; ring

/-- The squared-distance encoding of `dist ≤ r` agrees with the real
Euclidean comparison `√d2 ≤ r`. -/
theorem sqLeB_eq_sqrt_le (d2 r : ℚ) :
    sqLeB d2 r = true ↔ Real.sqrt (d2 : ℝ) ≤ (r : ℝ) := by
  rw [Real.sqrt_le_iff]
  simp only [sqLeB, decide_eq_true_eq]
  constructor
  · rintro ⟨h1, h2⟩
    refine ⟨by exact_mod_cast h1, by exact_mod_cast h2⟩
  · rintro ⟨h1, h2⟩
    refine ⟨by exact_mod_cast h1, by exact_mod_cast h2⟩

/-- On two vehicles the nested loops visit exactly the pair `(0, 1)`. -/
theorem pairIdxs_two : pairIdxs 2 = [(0, 1)] := rfl

theorem check_collision_eq (s : Simulator) :
    check_collision s =
      if anyCollision s then (true, finishStop s, [Event.collided])
      else (false, s, []) := by
  unfold check_collision
  cases h : (pairIdxs s.aircrafts.length).find?
      (fun p => collideB (acAt s p.1) (acAt s p.2)) with
  | none =>
    have hA : anyCollision s = false := by
      rw [List.find?_eq_none] at h
      simp only [anyCollision, Bool.eq_false_iff, ne_eq, List.any_eq_true, not_exists,
        not_and]
      intro p hp hc
      exact h p hp hc
    rw [hA]; rfl
  | some p =>
    have hA : anyCollision s = true := by
      have h3 := List.find?_some h
      simp only [anyCollision, List.any_eq_true]
      exact ⟨p, List.mem_of_find?_eq_some h, by simpa using h3⟩
    rw [hA]; rfl

theorem check_offscreen_eq (s : Simulator) :
    check_offscreen s =
      if allInBounds s then (false, s, [])
      else (true, finishStop s, [Event.leftBoundaries]) := by
  unfold check_offscreen
  cases h : s.aircrafts.find? (fun a => ! inBounds s.resolution a) with
  | none =>
    have hA : allInBounds s = true := by
      rw [List.find?_eq_none] at h
      simp only [allInBounds, List.all_eq_true]
      intro a hp
      have := h a hp
      simpa using this
    rw [hA]; rfl
  | some a =>
    have hA : allInBounds s = false := by
      simp only [allInBounds, Bool.eq_false_iff, ne_eq, List.all_eq_true, not_forall]
      refine ⟨a, List.mem_of_find?_eq_some h, ?_⟩
      have := List.find?_some h
      simp only [Bool.not_eq_true'] at this
      simp [this]
    rw [hA]; rfl

theorem avoid_two_zero (s : Simulator) (x y : Aircraft)
    (hs : s.aircrafts = [x, y]) (hx : x.aircraft_id = 0) :
    avoid_aircraft_collision s 0 =
      Except.ok [Event.conflictReport (sqDist x.position y.position)
        (x.position.1 - y.position.1, x.position.2 - y.position.2)] := by
  unfold avoid_aircraft_collision
  rw [hs]
  simp [hx]

theorem avoid_two_one (s : Simulator) (x y : Aircraft)
    (hs : s.aircrafts = [x, y]) (hy : y.aircraft_id = 1) :
    avoid_aircraft_collision s 1 =
      Except.ok [Event.conflictReport (sqDist y.position x.position)
        (y.position.1 - x.position.1, y.position.2 - x.position.2)] := by
  unfold avoid_aircraft_collision
  rw [hs]
  simp [hy]

theorem side0_eq (s : Simulator) (a b : Aircraft) (hs : s.aircrafts = [a, b])
    (ha : a.aircraft_id = 0) (inside : Bool) :
    safezoneSide s 0 inside =
      ({ s with aircrafts := [{ a with safezone_occupied := inside }, b] },
       sideEvents 0 a.position b.position a.safezone_occupied inside, none) := by
  have hac : acAt s 0 = a := by simp [acAt, hs]
  cases s with
  | mk res acs st fin timer fps crash =>
    simp only [Simulator.mk.injEq] at hs ⊢
    subst hs
    simp only [acAt, List.getD] at hac
    unfold safezoneSide
    cases inside with
    | true =>
      cases hf : a.safezone_occupied with
      | false =>
        rw [show acAt ⟨res, [a, b], st, fin, timer, fps, crash⟩ 0 = a from hac]
        simp only [hf, Bool.not_false, if_pos]
        simp [avoid_aircraft_collision, setAc, sideEvents, hf, ha]
      | true =>
        rw [show acAt ⟨res, [a, b], st, fin, timer, fps, crash⟩ 0 = a from hac]
        simp only [hf, Bool.not_true, Bool.false_eq_true, if_false, if_true]
        simp only [sideEvents, if_pos, hf, if_true, Simulator.mk.injEq]
        cases a with
        | mk id pos yaw c sp mcc sz sfz occ dc pth =>
          simp only [Aircraft.mk.injEq] at hf ⊢
          simp [hf]
    | false =>
      cases hf : a.safezone_occupied with
      | false =>
        rw [show acAt ⟨res, [a, b], st, fin, timer, fps, crash⟩ 0 = a from hac]
        simp only [hf, Bool.false_eq_true, if_false, sideEvents, Simulator.mk.injEq]
        cases a with
        | mk id pos yaw c sp mcc sz sfz occ dc pth =>
          simp only [Aircraft.mk.injEq] at hf ⊢
          simp [hf]
      | true =>
        rw [show acAt ⟨res, [a, b], st, fin, timer, fps, crash⟩ 0 = a from hac]
        simp only [hf, Bool.false_eq_true, if_false, if_true, sideEvents]
        simp [setAc, ha]

theorem side1_eq (s : Simulator) (a b : Aircraft) (hs : s.aircrafts = [a, b])
    (hb : b.aircraft_id = 1) (inside : Bool) :
    safezoneSide s 1 inside =
      ({ s with aircrafts := [a, { b with safezone_occupied := inside }] },
       sideEvents 1 b.position a.position b.safezone_occupied inside, none) := by
  have hac : acAt s 1 = b := by simp [acAt, hs]
  cases s with
  | mk res acs st fin timer fps crash =>
    simp only [Simulator.mk.injEq] at hs ⊢
    subst hs
    simp only [acAt, List.getD] at hac
    unfold safezoneSide
    cases inside with
    | true =>
      cases hf : b.safezone_occupied with
      | false =>
        rw [show acAt ⟨res, [a, b], st, fin, timer, fps, crash⟩ 1 = b from hac]
        simp only [hf, Bool.not_false, if_pos]
        simp [avoid_aircraft_collision, setAc, sideEvents, hf, hb]
      | true =>
        rw [show acAt ⟨res, [a, b], st, fin, timer, fps, crash⟩ 1 = b from hac]
        simp only [hf, Bool.not_true, Bool.false_eq_true, if_false, if_true]
        simp only [sideEvents, if_pos, hf, if_true, Simulator.mk.injEq]
        cases b with
        | mk id pos yaw c sp mcc sz sfz occ dc pth =>
          simp only [Aircraft.mk.injEq] at hf ⊢
          simp [hf]
    | false =>
      cases hf : b.safezone_occupied with
      | false =>
        rw [show acAt ⟨res, [a, b], st, fin, timer, fps, crash⟩ 1 = b from hac]
        simp only [hf, Bool.false_eq_true, if_false, sideEvents, Simulator.mk.injEq]
        cases b with
        | mk id pos yaw c sp mcc sz sfz occ dc pth =>
          simp only [Aircraft.mk.injEq] at hf ⊢
          simp [hf]
      | true =>
        rw [show acAt ⟨res, [a, b], st, fin, timer, fps, crash⟩ 1 = b from hac]
        simp only [hf, Bool.false_eq_true, if_false, if_true, sideEvents]
        simp [setAc, hb]

theorem acAt_update (t : Simulator) (l : List Aircraft) (i : Nat) :
    acAt { t with aircrafts := l } i = l.getD i default := rfl

theorem safezonePair_two (s : Simulator) (a b : Aircraft) (hs : s.aircrafts = [a, b])
    (ha : a.aircraft_id = 0) (hb : b.aircraft_id = 1) :
    safezonePair s 0 1 =
      ({ s with aircrafts := [{ a with safezone_occupied := insideOf a b },
                              { b with safezone_occupied := insideOf b a }] },
       sideEvents 0 a.position b.position a.safezone_occupied (insideOf a b) ++
       sideEvents 1 b.position a.position b.safezone_occupied (insideOf b a),
       none) := by
  have hac0 : acAt s 0 = a := by simp [acAt, hs]
  have hac1 : acAt s 1 = b := by simp [acAt, hs]
  have hio : sqLeB (sqDist a.position b.position) (b.safezone_size / 2) = insideOf b a := by
    unfold insideOf; rw [sqDist_comm]
  unfold safezonePair
  rw [hac0, hac1]
  dsimp only
  rw [side0_eq s a b hs ha]
  dsimp only
  rw [acAt_update]
  simp only [List.getD_cons_succ, List.getD_cons_zero]
  rw [hio]
  rw [side1_eq _ _ _ rfl hb]
  dsimp only
  simp only [insideOf]

theorem check_safezones_two (s : Simulator) (a b : Aircraft) (hs : s.aircrafts = [a, b])
    (ha : a.aircraft_id = 0) (hb : b.aircraft_id = 1) :
    check_safezones s =
      ({ s with aircrafts := [{ a with safezone_occupied := insideOf a b },
                              { b with safezone_occupied := insideOf b a }] },
       sideEvents 0 a.position b.position a.safezone_occupied (insideOf a b) ++
       sideEvents 1 b.position a.position b.safezone_occupied (insideOf b a),
       none) := by
  have hl : s.aircrafts.length = 2 := by rw [hs]; rfl
  have hcs : check_safezones s = safezonePair s 0 1 := by
    unfold check_safezones; rw [hl]; rfl
  rw [hcs, safezonePair_two s a b hs ha hb]

theorem allInBounds_set_stopped (t : Simulator) (x : Bool) :
    allInBounds { t with is_stopped := x } = allInBounds t := rfl

/-- The tick in phase form: safezone pass on the moved state (an exception
there aborts the tick), then the collision condition (terminal), then the
boundary condition (only reached when no collision), then the scripted
injection (only reached when neither terminal fired and the toggle is
on). -/
theorem update_simulation_eq (s : Simulator) :
    update_simulation s =
      match check_safezones { s with aircrafts := s.aircrafts.map update_position } with
      | (s1, evs, some e) => (s1, evs, some e)
      | (s1, evs, none) =>
        if anyCollision s1 then (finishStop s1, evs ++ [Event.collided], none)
        else if allInBounds s1 then
          (if s1.cause_crash_second then cause_collision { s1 with is_stopped := false }
           else { s1 with is_stopped := false }, evs, none)
        else (finishStop s1, evs ++ [Event.leftBoundaries], none) := by
  unfold update_simulation
  dsimp only
  rcases hcs : check_safezones { s with aircrafts := s.aircrafts.map update_position }
    with ⟨s1, evs, err⟩
  cases err with
  | some e => rfl
  | none =>
    show (let r2 := check_collision s1
      let s2 := { r2.2.1 with is_stopped := r2.1 }
      if r2.1 then (s2, evs ++ r2.2.2, none)
      else
        let r3 := check_offscreen s2
        let s3 := { r3.2.1 with is_stopped := r3.1 }
        if r3.1 then (s3, evs ++ r2.2.2 ++ r3.2.2, none)
        else if s3.cause_crash_second then (cause_collision s3, evs ++ r2.2.2 ++ r3.2.2, none)
        else (s3, evs ++ r2.2.2 ++ r3.2.2, none)) =
      (if anyCollision s1 then (finishStop s1, evs ++ [Event.collided], none)
       else if allInBounds s1 then
         (if s1.cause_crash_second then cause_collision { s1 with is_stopped := false }
          else { s1 with is_stopped := false }, evs, none)
       else (finishStop s1, evs ++ [Event.leftBoundaries], none))
    rcases hcc : check_collision s1 with ⟨c, sc, ec⟩
    rw [check_collision_eq] at hcc
    dsimp only
    split at hcc
    case isTrue hAny =>
      simp only [Prod.mk.injEq] at hcc
      obtain ⟨h1, h2, h3⟩ := hcc
      subst h1; subst h2; subst h3
      simp [hAny, finishStop, stop_simulation]
    case isFalse hAny =>
      simp only [Prod.mk.injEq] at hcc
      obtain ⟨h1, h2, h3⟩ := hcc
      subst h1; subst h2; subst h3
      simp only [Bool.false_eq_true, if_false]
      rcases hoo : check_offscreen { s1 with is_stopped := false } with ⟨o, so, eo⟩
      rw [check_offscreen_eq, allInBounds_set_stopped] at hoo
      dsimp only
      rw [Bool.not_eq_true] at hAny
      rw [hAny]
      split at hoo
      case isTrue hAll =>
        simp only [Prod.mk.injEq] at hoo
        obtain ⟨g1, g2, g3⟩ := hoo
        subst g1; subst g2; subst g3
        simp only [hAll, Bool.false_eq_true, if_false, if_true, List.append_nil]
        split <;> rfl
      case isFalse hAll =>
        simp only [Prod.mk.injEq] at hoo
        obtain ⟨g1, g2, g3⟩ := hoo
        subst g1; subst g2; subst g3
        rw [Bool.not_eq_true] at hAll
        rw [hAll]
        simp [finishStop, stop_simulation]

theorem setAc_is_finished (s : Simulator) (i : Nat) (a : Aircraft) :
    (setAc s i a).is_finished = s.is_finished := rfl

theorem safezoneSide_is_finished (s : Simulator) (k : Nat) (inside : Bool) :
    (safezoneSide s k inside).1.is_finished = s.is_finished := by
  unfold safezoneSide
  dsimp only
  split
  · split
    · split <;> rfl
    · rfl
  · split <;> rfl

theorem safezonePair_is_finished (s : Simulator) (i j : Nat) :
    (safezonePair s i j).1.is_finished = s.is_finished := by
  unfold safezonePair
  dsimp only
  rcases h1 : safezoneSide s i
      (sqLeB (sqDist (acAt s i).position (acAt s j).position)
        ((acAt s i).safezone_size / 2)) with ⟨s1, evs1, err1⟩
  have e1 : s1.is_finished = s.is_finished := by
    rw [← safezoneSide_is_finished s i
      (sqLeB (sqDist (acAt s i).position (acAt s j).position)
        ((acAt s i).safezone_size / 2)), h1]
  cases err1 with
  | some e => exact e1
  | none =>
    dsimp only
    rw [safezoneSide_is_finished]
    exact e1

theorem check_safezones_is_finished (s : Simulator) :
    (check_safezones s).1.is_finished = s.is_finished := by
  unfold check_safezones
  generalize pairIdxs s.aircrafts.length = ps
  suffices h : ∀ (l : List (Nat × Nat)) (acc : Simulator × List Event × Option AvoidError),
      acc.1.is_finished = s.is_finished →
      (l.foldl (fun acc p =>
        match acc with
        | (s0, evs, some e) => (s0, evs, some e)
        | (s0, evs, none) =>
          let r := safezonePair s0 p.1 p.2
          (r.1, evs ++ r.2.1, r.2.2)) acc).1.is_finished = s.is_finished by
    exact h ps (s, [], none) rfl
  intro l
  induction l with
  | nil => intro acc h; simpa using h
  | cons p l ih =>
    intro acc h
    rcases acc with ⟨s0, evs, err⟩
    cases err with
    | some e => exact ih (s0, evs, some e) h
    | none =>
      refine ih _ ?_
      dsimp only
      rw [safezonePair_is_finished]
      exact h

theorem cause_collision_is_finished (s : Simulator) :
    (cause_collision s).is_finished = s.is_finished := by
  unfold cause_collision
  split <;> rfl

/-- `update_simulation` never clears `is_finished`. -/
theorem update_simulation_is_finished (s : Simulator) (h : s.is_finished = true) :
    (update_simulation s).1.is_finished = true := by
  rw [update_simulation_eq]
  rcases hcs : check_safezones { s with aircrafts := s.aircrafts.map update_position }
    with ⟨s1, evs, err⟩
  have e1 : s1.is_finished = true := by
    have := check_safezones_is_finished
      { s with aircrafts := s.aircrafts.map update_position }
    rw [hcs] at this
    exact this.trans h
  cases err with
  | some e => exact e1
  | none =>
    dsimp only
    split
    · rfl
    · split
      · split
        · rw [cause_collision_is_finished]
          exact e1
        · exact e1
      · rfl

theorem update_position_id (a : Aircraft) :
    (update_position a).aircraft_id = a.aircraft_id := rfl

theorem update_position_speed (a : Aircraft) :
    (update_position a).speed = a.speed := rfl

theorem update_position_size (a : Aircraft) :
    (update_position a).size = a.size := rfl

theorem update_position_safezone_size (a : Aircraft) :
    (update_position a).safezone_size = a.safezone_size := rfl

theorem update_position_flag (a : Aircraft) :
    (update_position a).safezone_occupied = a.safezone_occupied := rfl

/-- The stepper moves the heading but not the position of a speed-0
aircraft. -/
theorem update_position_static (a : Aircraft) (h : a.speed = 0) :
    (update_position a).position = a.position := by
  unfold update_position
  dsimp only
  rw [h]
  simp

theorem insideOf_congr (a a' b b' : Aircraft) (hp : a.position = a'.position)
    (hq : b.position = b'.position) (hsz : a.safezone_size = a'.safezone_size) :
    insideOf a b = insideOf a' b' := by
  unfold insideOf
  rw [hp, hq, hsz]

theorem collideB_congr (a a' b b' : Aircraft) (hp : a.position = a'.position)
    (hq : b.position = b'.position) (hsa : a.size = a'.size) (hsb : b.size = b'.size) :
    collideB a b = collideB a' b' := by
  unfold collideB
  rw [hp, hq, hsa, hsb]

theorem inBounds_congr (res : ℚ × ℚ) (a a' : Aircraft) (hp : a.position = a'.position)
    (hs : a.size = a'.size) : inBounds res a = inBounds res a' := by
  unfold inBounds
  rw [hp, hs]

theorem anyCollision_two (s : Simulator) (a b : Aircraft) (hs : s.aircrafts = [a, b]) :
    anyCollision s = collideB a b := by
  unfold anyCollision
  rw [hs]
  simp [pairIdxs_two, acAt, hs]

theorem allInBounds_two (s : Simulator) (a b : Aircraft) (hs : s.aircrafts = [a, b]) :
    allInBounds s = (inBounds s.resolution a && inBounds s.resolution b) := by
  unfold allInBounds
  rw [hs]
  simp

/-- With the flag already agreeing with the test, a side emits nothing. -/
theorem sideEvents_same (k : Nat) (p q : ℚ × ℚ) (f : Bool) :
    sideEvents k p q f f = [] := by
  cases f <;> simp [sideEvents]

theorem tick_static (s : Simulator) (a b : Aircraft) (h : StaticCfg s a b) :
    tick s =
      ({ s with aircrafts := [{ update_position a with safezone_occupied := true }, { update_position b with safezone_occupied := true }], is_stopped := false },
       sideEvents 0 a.position b.position a.safezone_occupied true ++
       sideEvents 1 b.position a.position b.safezone_occupied true) := by
  obtain ⟨hs, ha, hb, hspa, hspb, hiab, hiba, hcol, hba, hbb, hcc, htm⟩ := h
  have hpa : (update_position a).position = a.position := update_position_static a hspa
  have hpb : (update_position b).position = b.position := update_position_static b hspb
  have hIab : insideOf (update_position a) (update_position b) = true := by
    rw [← insideOf_congr a _ b _ hpa.symm hpb.symm rfl]
    exact hiab
  have hIba : insideOf (update_position b) (update_position a) = true := by
    rw [← insideOf_congr b _ a _ hpb.symm hpa.symm rfl]
    exact hiba
  unfold tick
  rw [if_pos htm]
  rw [update_simulation_eq]
  have hmap : ({ s with aircrafts := s.aircrafts.map update_position } : Simulator).aircrafts
      = [update_position a, update_position b] := by
    rw [hs]; rfl
  rw [check_safezones_two _ (update_position a) (update_position b) (by rw [hmap])
    (by rw [update_position_id, ha]) (by rw [update_position_id, hb])]
  dsimp only
  rw [hIab, hIba]
  rw [anyCollision_two _ { update_position a with safezone_occupied := true }
    { update_position b with safezone_occupied := true } rfl]
  have hcol2 : collideB { update_position a with safezone_occupied := true }
      { update_position b with safezone_occupied := true } = false :=
    (collideB_congr _ a _ b hpa hpb rfl rfl).trans hcol
  rw [hcol2]
  rw [allInBounds_two _ { update_position a with safezone_occupied := true }
    { update_position b with safezone_occupied := true } rfl]
  have hbnd : inBounds s.resolution { update_position a with safezone_occupied := true }
      = true ∧ inBounds s.resolution { update_position b with safezone_occupied := true }
      = true :=
    ⟨(inBounds_congr s.resolution _ a hpa rfl).trans hba,
     (inBounds_congr s.resolution _ b hpb rfl).trans hbb⟩
  rw [show ({ s with aircrafts := s.aircrafts.map update_position } :
      Simulator).resolution = s.resolution from rfl] at *
  rw [hbnd.1, hbnd.2]
  rw [show ({ s with aircrafts := s.aircrafts.map update_position } :
      Simulator).cause_crash_second = s.cause_crash_second from rfl, hcc]
  simp only [Bool.false_eq_true, if_false, Bool.true_and, if_true]
  rw [update_position_flag, update_position_flag, hpa, hpb]

theorem staticCfg_succ (s : Simulator) (a b : Aircraft) (h : StaticCfg s a b) :
    StaticCfg
      { s with aircrafts := [{ update_position a with safezone_occupied := true }, { update_position b with safezone_occupied := true }], is_stopped := false }
      { update_position a with safezone_occupied := true }
      { update_position b with safezone_occupied := true } := by
  obtain ⟨hs, ha, hb, hspa, hspb, hiab, hiba, hcol, hba, hbb, hcc, htm⟩ := h
  have hpa : (update_position a).position = a.position := update_position_static a hspa
  have hpb : (update_position b).position = b.position := update_position_static b hspb
  exact ⟨rfl, ha, hb, hspa, hspb,
    (insideOf_congr _ a _ b hpa hpb rfl).trans hiab,
    (insideOf_congr _ b _ a hpb hpa rfl).trans hiba,
    (collideB_congr _ a _ b hpa hpb rfl rfl).trans hcol,
    (inBounds_congr _ _ a hpa rfl).trans hba,
    (inBounds_congr _ _ b hpb rfl).trans hbb,
    hcc, htm⟩

theorem run_steady (n : Nat) : ∀ s : Simulator,
    (∃ a b, StaticCfg s a b ∧ a.safezone_occupied = true ∧ b.safezone_occupied = true) →
    (run n s).2 = [] := by
  induction n with
  | zero => intro s _; rfl
  | succ n ih =>
    intro s h
    obtain ⟨a, b, hc, hfa, hfb⟩ := h
    unfold run
    dsimp only
    rw [tick_static s a b hc]
    dsimp only
    rw [hfa, hfb, sideEvents_same, sideEvents_same]
    rw [ih _ ⟨_, _, staticCfg_succ s a b hc, rfl, rfl⟩]
    rfl

/-- A run of `n ≥ 1` ticks from the static scenario with both flags clear
emits exactly the two entry event groups of the first tick. -/
theorem run_static_events (n : Nat) (s : Simulator) (a b : Aircraft)
    (h : StaticCfg s a b) (hfa : a.safezone_occupied = false)
    (hfb : b.safezone_occupied = false) (hn : 1 ≤ n) :
    (run n s).2 =
      sideEvents 0 a.position b.position false true ++
      sideEvents 1 b.position a.position false true := by
  cases n with
  | zero => exact absurd hn (by simp)
  | succ n =>
    unfold run
    dsimp only
    rw [tick_static s a b h]
    dsimp only
    rw [hfa, hfb]
    rw [run_steady n _ ⟨_, _, staticCfg_succ s a b h, rfl, rfl⟩]
    simp

/-! ## Claims -/

/-- C1: for every unordered pair, if the distance between centers is
≤ (size_i + size_j) / 2, the collision check stops the simulation timer,
sets `is_finished` and `is_stopped`, reports the collision and returns
true without further effect; if no pair satisfies the test it returns
false and leaves the state (in particular `is_finished`) unchanged. -/
theorem claim1_check_collision (s : Simulator) :
    (anyCollision s = true →
      check_collision s = (true, { s with simulation_timer_active := false, is_stopped := true, current_simulation_fps := 0, is_finished := true }, [Event.collided])) ∧
    (anyCollision s = false → check_collision s = (false, s, [])) := by
  constructor <;> intro h <;> rw [check_collision_eq, h] <;> rfl

theorem claim1_check_collision_witness :
    check_collision { simBase with aircrafts := [mkAircraft 0 (100, 100) 45 2 45, mkAircraft 1 (110, 100) 135 2 135] } =
      (true, { { simBase with aircrafts := [mkAircraft 0 (100, 100) 45 2 45, mkAircraft 1 (110, 100) 135 2 135] } with simulation_timer_active := false, is_stopped := true, current_simulation_fps := 0, is_finished := true }, [Event.collided]) ∧
    check_collision { simBase with aircrafts := [mkAircraft 0 (100, 100) 45 2 45, mkAircraft 1 (900, 100) 135 2 135] } =
      (false, { simBase with aircrafts := [mkAircraft 0 (100, 100) 45 2 45, mkAircraft 1 (900, 100) 135 2 135] }, []) :=
  ⟨(claim1_check_collision _).1 (by with_unfolding_all rfl),
   (claim1_check_collision _).2 (by with_unfolding_all rfl)⟩

/-- C2: a vehicle is in-bounds iff `size/2 ≤ x ≤ width − size/2` and
`size/2 ≤ y ≤ height − size/2`; exactly at `x = size/2` it is in-bounds
while at `size/2 − ε` it is not, and the boundary check terminates the
simulation with `is_finished = true` exactly when some vehicle is
out-of-bounds. -/
theorem claim2_check_offscreen (s : Simulator) (a : Aircraft) (W H ε : ℚ) :
    (check_offscreen s =
      if allInBounds s then (false, s, [])
      else (true, { s with simulation_timer_active := false, is_stopped := true, current_simulation_fps := 0, is_finished := true }, [Event.leftBoundaries])) ∧
    (a.position.1 = a.size / 2 → a.position.1 ≤ W - a.size / 2 →
      a.size / 2 ≤ a.position.2 → a.position.2 ≤ H - a.size / 2 →
      inBounds (W, H) a = true) ∧
    (0 < ε → a.position.1 = a.size / 2 - ε → inBounds (W, H) a = false) := by
  refine ⟨(check_offscreen_eq s).trans (by rfl), ?_, ?_⟩
  · intro h1 h2 h3 h4
    simp only [inBounds, decide_eq_true_eq]
    refine ⟨by rw [h1]; linarith, by exact h2, by linarith, by exact h4⟩
  · intro hε h1
    simp only [inBounds, decide_eq_false_iff_not, not_and]
    intro c1
    exfalso
    rw [h1] at c1
    linarith

theorem claim2_check_offscreen_witness :
    inBounds (1000, 500) (mkAircraft 0 (10, 50) 0 2 0) = true ∧
    inBounds (1000, 500) (mkAircraft 0 (9, 50) 0 2 0) = false ∧
    check_offscreen { simBase with aircrafts := [mkAircraft 0 (9, 50) 0 2 0] } =
      (true, { { simBase with aircrafts := [mkAircraft 0 (9, 50) 0 2 0] } with simulation_timer_active := false, is_stopped := true, current_simulation_fps := 0, is_finished := true }, [Event.leftBoundaries]) :=
  ⟨(claim2_check_offscreen simBase (mkAircraft 0 (10, 50) 0 2 0) 1000 500 1).2.1
      (by with_unfolding_all rfl) (by norm_num [mkAircraft])
      (by norm_num [mkAircraft]) (by norm_num [mkAircraft]),
   (claim2_check_offscreen simBase (mkAircraft 0 (9, 50) 0 2 0) 1000 500 1).2.2
      (by norm_num) (by norm_num [mkAircraft]),
   ((claim2_check_offscreen { simBase with aircrafts := [mkAircraft 0 (9, 50) 0 2 0] } (mkAircraft 0 (9, 50) 0 2 0) 1000 500 1).1).trans (by with_unfolding_all rfl)⟩

/-- C9: the pairwise collision test is symmetric, and swapping the two
vehicles in the collection does not change whether the collision check
reports a collision. -/
theorem claim9_collision_symm (s : Simulator) (a b : Aircraft) :
    collideB a b = collideB b a ∧
    (check_collision { s with aircrafts := [a, b] }).1 =
      (check_collision { s with aircrafts := [b, a] }).1 := by
  have h : collideB a b = collideB b a := by
    unfold collideB
    rw [sqDist_comm a.position b.position, add_comm a.size b.size]
  refine ⟨h, ?_⟩
  rw [check_collision_eq, check_collision_eq,
    anyCollision_two _ a b rfl, anyCollision_two _ b a rfl, h]
  cases hx : collideB b a <;> simp

/-- C10: with exactly one vehicle of id 0, the Conflict Trigger's count
guards both pass, the id check passes, and the access to the other
vehicle at index `1 − 0 = 1` is out of range: the out-of-range error
branch is reachable. -/
theorem claim10_guard_gap (s : Simulator) (a : Aircraft) (hs : s.aircrafts = [a])
    (ha : a.aircraft_id = 0) :
    avoid_aircraft_collision s 0 = Except.error (AvoidError.indexOutOfRange 1) := by
  unfold avoid_aircraft_collision
  rw [hs]
  simp [ha]

theorem claim10_guard_gap_witness :
    avoid_aircraft_collision { simBase with aircrafts := [acS0] } 0 =
      Except.error (AvoidError.indexOutOfRange 1) :=
  claim10_guard_gap _ acS0 rfl rfl

/-- C3: for each pair the proximity pass compares the pair's distance
independently against each vehicle's own `safezone_size / 2`, so each
vehicle's own radius alone determines its own `safezone_occupied` flag;
with different safezone sizes (`acP`, `acQ`) one flag is set while the
other is not at the same distance. -/
theorem claim3_safezone_independence :
    (∀ (s : Simulator) (a b : Aircraft), s.aircrafts = [a, b] → a.aircraft_id = 0 →
      b.aircraft_id = 1 →
      (check_safezones s).1.aircrafts =
        [{ a with safezone_occupied := insideOf a b }, { b with safezone_occupied := insideOf b a }]) ∧
    (insideOf acP acQ = true ∧ insideOf acQ acP = false) := by
  refine ⟨?_, by with_unfolding_all rfl, by with_unfolding_all rfl⟩
  intro s a b hs ha hb
  rw [check_safezones_two s a b hs ha hb]

theorem claim3_safezone_independence_witness :
    (check_safezones { simBase with aircrafts := [acP, acQ] }).1.aircrafts =
      [{ acP with safezone_occupied := insideOf acP acQ }, { acQ with safezone_occupied := insideOf acQ acP }] :=
  claim3_safezone_independence.1 _ acP acQ rfl rfl rfl

/-- C4: safezone events are edge-triggered: on each pass the events are
exactly an "entered" group on a false→true flag transition and a "left"
event on a true→false transition, nothing when the flag is unchanged;
over any run of `N ≥ 2` ticks with two static vehicles inside each
other's safezone radius, "entered" fires exactly once per vehicle. -/
theorem claim4_edge_trigger :
    (∀ (s : Simulator) (a b : Aircraft), s.aircrafts = [a, b] → a.aircraft_id = 0 →
      b.aircraft_id = 1 →
      (check_safezones s).2.1 =
        sideEvents 0 a.position b.position a.safezone_occupied (insideOf a b) ++
        sideEvents 1 b.position a.position b.safezone_occupied (insideOf b a)) ∧
    (∀ (k : Nat) (p q : ℚ × ℚ) (f : Bool), sideEvents k p q f f = []) ∧
    (∀ (s : Simulator) (a b : Aircraft) (N : Nat), StaticCfg s a b →
      a.safezone_occupied = false → b.safezone_occupied = false → 2 ≤ N →
      (run N s).2.countP (fun e => decide (e = Event.enteredSafezone 0)) = 1 ∧
      (run N s).2.countP (fun e => decide (e = Event.enteredSafezone 1)) = 1) := by
  refine ⟨?_, sideEvents_same, ?_⟩
  · intro s a b hs ha hb
    rw [check_safezones_two s a b hs ha hb]
  · intro s a b N h hfa hfb hN
    rw [run_static_events N s a b h hfa hfb (le_trans (by norm_num) hN)]
    constructor <;> simp [sideEvents, List.countP_cons, List.countP_append]

theorem claim4_edge_trigger_witness :
    ((check_safezones simS).2.1 =
      sideEvents 0 acS0.position acS1.position acS0.safezone_occupied (insideOf acS0 acS1) ++
      sideEvents 1 acS1.position acS0.position acS1.safezone_occupied (insideOf acS1 acS0)) ∧
    ((run 2 simS).2.countP (fun e => decide (e = Event.enteredSafezone 0)) = 1 ∧
     (run 2 simS).2.countP (fun e => decide (e = Event.enteredSafezone 1)) = 1) :=
  ⟨claim4_edge_trigger.1 simS acS0 acS1 rfl rfl rfl,
   claim4_edge_trigger.2.2 simS acS0 acS1 2
    (by unfold StaticCfg
        refine ⟨rfl, rfl, rfl, rfl, rfl, ?_, ?_, ?_, ?_, ?_, rfl, rfl⟩ <;> with_unfolding_all rfl)
    rfl rfl (by norm_num)⟩

/-- C5: the Conflict Trigger warns and takes no action when called with
fewer than one vehicle, warns and takes no action when called with more
than two, and raises a fatal error aborting the operation when the
vehicle found at the passed id does not carry that id. -/
theorem claim5_conflict_trigger_guards (s : Simulator) (vid : Nat) (a : Aircraft) :
    (s.aircrafts.length = 0 →
      avoid_aircraft_collision s vid = Except.ok [Event.warnNoAircrafts]) ∧
    (3 ≤ s.aircrafts.length →
      avoid_aircraft_collision s vid = Except.ok [Event.warnTooMany]) ∧
    (s.aircrafts.length ≤ 2 → s.aircrafts[vid]? = some a → a.aircraft_id ≠ vid →
      avoid_aircraft_collision s vid = Except.error AvoidError.idMismatch) := by
  refine ⟨?_, ?_, ?_⟩
  · intro h0
    unfold avoid_aircraft_collision
    rw [if_pos (by omega)]
  · intro h3
    unfold avoid_aircraft_collision
    rw [if_neg (by omega), if_pos (by omega)]
  · intro h2 hsome hne
    have hlt : vid < s.aircrafts.length := by
      by_contra hge
      rw [List.getElem?_eq_none (by omega)] at hsome
      exact Option.noConfusion hsome
    unfold avoid_aircraft_collision
    rw [if_neg (by omega), if_neg (by omega), hsome]
    dsimp only
    rw [if_pos hne]

theorem claim5_conflict_trigger_guards_witness :
    avoid_aircraft_collision simBase 0 = Except.ok [Event.warnNoAircrafts] ∧
    avoid_aircraft_collision { simBase with aircrafts := [acS0, acS1, acP] } 0 =
      Except.ok [Event.warnTooMany] ∧
    avoid_aircraft_collision { simBase with aircrafts := [acS1, acS0] } 0 =
      Except.error AvoidError.idMismatch :=
  ⟨(claim5_conflict_trigger_guards simBase 0 acS0).1 rfl,
   (claim5_conflict_trigger_guards _ 0 acS0).2.1 (by norm_num),
   (claim5_conflict_trigger_guards _ 0 acS1).2.2 (by norm_num) rfl
     (by with_unfolding_all decide)⟩

/-- C6: each tick runs, in order: advance every vehicle, the safezone
pass (whose exception would abort the tick), the collision check
(terminal), the boundary check (skipped when the collision check already
terminated this tick), and finally the scripted injection when its toggle
is enabled and no terminal check fired. -/
theorem claim6_phase_order (s : Simulator) :
    update_simulation s =
      match check_safezones { s with aircrafts := s.aircrafts.map update_position } with
      | (s1, evs, some e) => (s1, evs, some e)
      | (s1, evs, none) =>
        if anyCollision s1 then (finishStop s1, evs ++ [Event.collided], none)
        else if allInBounds s1 then
          (if s1.cause_crash_second then cause_collision { s1 with is_stopped := false }
           else { s1 with is_stopped := false }, evs, none)
        else (finishStop s1, evs ++ [Event.leftBoundaries], none) :=
  update_simulation_eq s

/-- C7: reset first clears every existing vehicle's path, then replaces
the collection with exactly the two fresh vehicles of the fixed starting
configuration (vehicle 0 at (100,100) course 45°, vehicle 1 at (900,100)
course 135°, both at speed 2) and clears `is_finished`; no other engine
operation clears `is_finished`. -/
theorem claim7_reset (s : Simulator) :
    ((reset_simulation s).aircrafts =
      [mkAircraft 0 (100, 100) 45 2 45, mkAircraft 1 (900, 100) 135 2 135]) ∧
    ((reset_simulation s).is_finished = false) ∧
    (∀ a ∈ (clear_paths s).aircrafts, a.path = []) ∧
    (s.is_finished = true →
      (start_simulation s).is_finished = true ∧
      (stop_simulation s).is_finished = true ∧
      (check_safezones s).1.is_finished = true ∧
      (check_collision s).2.1.is_finished = true ∧
      (check_offscreen s).2.1.is_finished = true ∧
      (cause_collision s).is_finished = true ∧
      (update_simulation s).1.is_finished = true ∧
      (tick s).1.is_finished = true) := by
  refine ⟨rfl, rfl, ?_, ?_⟩
  · intro a ha
    simp only [clear_paths, List.mem_map] at ha
    obtain ⟨x, hx, hxa⟩ := ha
    rw [← hxa]
  · intro h
    refine ⟨h, h, (check_safezones_is_finished s).trans h, ?_, ?_,
      (cause_collision_is_finished s).trans h, update_simulation_is_finished s h, ?_⟩
    · rw [check_collision_eq]
      split
      · rfl
      · exact h
    · rw [check_offscreen_eq]
      split
      · exact h
      · rfl
    · unfold tick
      split
      · exact update_simulation_is_finished s h
      · exact h

theorem claim7_reset_witness :
    (reset_simulation { simBase with is_finished := true }).is_finished = false ∧
    (stop_simulation { simBase with is_finished := true }).is_finished = true ∧
    (tick { simBase with is_finished := true }).1.is_finished = true :=
  ⟨(claim7_reset { simBase with is_finished := true }).2.1,
   ((claim7_reset { simBase with is_finished := true }).2.2.2 rfl).2.1,
   ((claim7_reset { simBase with is_finished := true }).2.2.2 rfl).2.2.2.2.2.2.2⟩

/-- C8: the resume/pause command resumes from Stopped only when not
Finished, pauses when Running, and when Finished performs a reset
followed by a start, leaving `is_finished = false` and
`is_stopped = false`. -/
theorem claim8_resume (s : Simulator) :
    (s.is_finished = false → s.is_stopped = true → key_slash s = start_simulation s) ∧
    (s.is_finished = false → s.is_stopped = false → key_slash s = stop_simulation s) ∧
    (s.is_finished = true → key_slash s = start_simulation (reset_simulation s) ∧
      (key_slash s).is_finished = false ∧ (key_slash s).is_stopped = false) := by
  refine ⟨?_, ?_, ?_⟩
  · intro hf hst
    unfold key_slash
    simp [hf, hst]
  · intro hf hst
    unfold key_slash
    simp [hf, hst]
  · intro hf
    have he : key_slash s = start_simulation (reset_simulation s) := by
      unfold key_slash
      simp [hf]
    exact ⟨he, by rw [he]; rfl, by rw [he]; rfl⟩

theorem claim8_resume_witness :
    key_slash { simBase with is_stopped := true } =
      start_simulation { simBase with is_stopped := true } ∧
    key_slash simBase = stop_simulation simBase ∧
    key_slash { simBase with is_finished := true } =
      start_simulation (reset_simulation { simBase with is_finished := true }) :=
  ⟨(claim8_resume { simBase with is_stopped := true }).1 rfl rfl,
   (claim8_resume simBase).2.1 rfl rfl,
   ((claim8_resume { simBase with is_finished := true }).2.2 rfl).1⟩

end UavSim
